import Mathlib

/-!
Verification of the collision subsystem of the `rivalation` 2D browser game.

The source is a single JavaScript file (`game.js`).  The definitions below are a
shallow embedding of its collision code:

* `MapManager.detectShapeType`, `MapManager.updateSpatialGrid`,
  `MapManager.checkCollision` and the per-shape narrow-phase predicates
  (`rectCollision`, `checkRotatedRectangleCollision` / `getRotatedCorners` /
  `satCollision` / `projectShape` / `overlap`, `checkCircleCollision`,
  `checkTriangleCollision` / `pointInTriangle`, `checkPolygonCollision` /
  `pointInPolygon` / `rectanglePolygonIntersection` / `lineIntersection`);
* `Player.move`;
* `HouseInteraction.checkProximityToHouses` and its three zone predicates.

Numeric model.  JavaScript numbers are IEEE-754 doubles.  They are modelled by
exact rationals (`ℚ`): every arithmetic operation appearing in the source is
exact on the inputs the theorems quantify over, so no rounding is modelled.
Two JavaScript peculiarities do matter for the specification and are modelled
explicitly:

* `Math.sqrt` is irrational-valued; it is modelled by `sqrtQ`, a rational
  Newton over-approximation.  Every theorem below depends only on the two
  properties `sqrtQ 0 = 0` and `0 < q → 0 < sqrtQ q`, which `sqrtQ` shares
  with the exact square root, never on its value at a non-square.
* Division by zero yields `NaN`/`±Infinity` in JavaScript, and comparisons
  with `NaN` are false.  The two predicates whose source divides without a
  zero guard (`pointInTriangle`, `satCollision`) therefore compute through
  `JF`, a float model with `nan` and signed infinities obeying the IEEE rules
  (with an unsigned zero; the sign of an infinity produced by dividing by a
  JavaScript negative zero is the one place the model fixes a choice, and no
  theorem below depends on it).
* `Math.cos` / `Math.sin` are transcendental; `cosQ` / `sinQ` are rational
  Taylor approximations, exact at rotation `0`, and the one theorem about
  rotated rectangles (`satCollision_iff_no_separating_axis`) abstracts the
  pair `(cos θ, sin θ)` as any rational point on the unit circle.
-/

/-- A 2-D point, the `{x, y}` object literals of the source. -/
structure Pt where
  x : ℚ
  y : ℚ
deriving DecidableEq

/-- The shape kinds produced by `MapManager.detectShapeType` (strings in the
source). -/
inductive Shape where
  | rectangle
  | circle
  | triangle
  | polygon
deriving DecidableEq

/-- A collision object of `MapManager.collisionLayer`, as built in
`loadCollisionData`.  `polygon`, `radius` and `points` are `null`-able in the
source, modelled by `Option`; the cosmetic `type` string is omitted because no
collision code reads it. -/
structure Wall where
  x : ℚ
  y : ℚ
  width : ℚ
  height : ℚ
  rotation : ℚ
  shape : Shape
  polygon : Option (List Pt)
  radius : Option ℚ
  points : Option (List Pt)
deriving DecidableEq

/-- A raw map object as read from `wallspro.tmj`, the input of
`detectShapeType`.  A `polygon` field that is absent (or `null`, or not an
array) is `none`; `radius` likewise. -/
structure RawObject where
  x : ℚ
  y : ℚ
  width : ℚ
  height : ℚ
  rotation : Option ℚ
  polygon : Option (List Pt)
  radius : Option ℚ
deriving DecidableEq

/-- The `MapManager` fields the collision pipeline reads: map dimensions in
tiles, tile pixel sizes, and the obstacle list.  The grid cell size is the
constant `gridSize` below, as in the source constructor. -/
structure MapManagerState where
  width : ℚ
  height : ℚ
  tileWidth : ℚ
  tileHeight : ℚ
  collisionLayer : List Wall
deriving DecidableEq

/-- The player fields read by `Player.move`. -/
structure PlayerState where
  x : ℚ
  y : ℚ
  width : ℚ
  height : ℚ
deriving DecidableEq

/-- The shape tag of a house area (`'polygon'`, `'ellipse'`, `'rectangle'`,
with `other` standing for any other string, which the source handles in the
`default` branch of its `switch`). -/
inductive HouseShape where
  | rectangle
  | ellipse
  | polygon
  | other
deriving DecidableEq

/-- A house area of `HouseInteraction.houseAreas`: the geometric fields read
by `checkProximityToHouses` and its three shape predicates. -/
structure House where
  name : String
  x : ℚ
  y : ℚ
  width : ℚ
  height : ℚ
  centerX : ℚ
  centerY : ℚ
  radius : ℚ
  shape : HouseShape
  polygon : Option (List Pt)
deriving DecidableEq

/-- One Newton step sequence for the square root, started strictly above the
root so every iterate of a positive argument is positive. -/
def newtonSqrt (q : ℚ) : ℕ → ℚ
  | 0 => q + 1
  | n + 1 => (newtonSqrt q n + q / newtonSqrt q n) / 2

/-- Model of `Math.sqrt` on the rationals: `0` on nonpositive arguments and a
positive Newton approximation on positive ones.  The theorems in this file
use only `sqrtQ 0 = 0` and `0 < q → 0 < sqrtQ q`, properties shared with the
exact square root. -/
def sqrtQ (q : ℚ) : ℚ :=
  if q ≤ 0 then 0 else newtonSqrt q 8

/-- The float model: exact rationals together with `nan` and the two
infinities.  Only the operations the embedded source uses are defined. -/
inductive JF where
  | num (q : ℚ)
  | nan
  | pinf
  | ninf
deriving DecidableEq

namespace JF

/-- IEEE negation. -/
def neg : JF → JF
  | num a => num (-a)
  | nan => nan
  | pinf => ninf
  | ninf => pinf

/-- IEEE addition (`Infinity + -Infinity = NaN`). -/
def add : JF → JF → JF
  | nan, _ => nan
  | _, nan => nan
  | num a, num b => num (a + b)
  | pinf, ninf => nan
  | ninf, pinf => nan
  | pinf, _ => pinf
  | _, pinf => pinf
  | ninf, _ => ninf
  | _, ninf => ninf

/-- IEEE subtraction, as addition of the negation. -/
def sub (a b : JF) : JF := add a (neg b)

/-- IEEE multiplication (`Infinity * 0 = NaN`). -/
def mul : JF → JF → JF
  | nan, _ => nan
  | _, nan => nan
  | num a, num b => num (a * b)
  | pinf, num b => if b = 0 then nan else if 0 < b then pinf else ninf
  | num a, pinf => if a = 0 then nan else if 0 < a then pinf else ninf
  | ninf, num b => if b = 0 then nan else if 0 < b then ninf else pinf
  | num a, ninf => if a = 0 then nan else if 0 < a then ninf else pinf
  | pinf, pinf => pinf
  | pinf, ninf => ninf
  | ninf, pinf => ninf
  | ninf, ninf => pinf

/-- IEEE division with an unsigned zero: `0 / 0 = NaN`, `±a / 0 = ±Infinity`
(the sign a JavaScript negative zero would flip is fixed here, and no theorem
depends on it). -/
def div : JF → JF → JF
  | nan, _ => nan
  | _, nan => nan
  | num a, num b =>
      if b = 0 then (if a = 0 then nan else if 0 < a then pinf else ninf)
      else num (a / b)
  | num _, pinf => num 0
  | num _, ninf => num 0
  | pinf, num b => if 0 ≤ b then pinf else ninf
  | ninf, num b => if 0 ≤ b then ninf else pinf
  | pinf, pinf => nan
  | pinf, ninf => nan
  | ninf, pinf => nan
  | ninf, ninf => nan

/-- The JavaScript `<=` comparison: false whenever an operand is `NaN`. -/
def le : JF → JF → Bool
  | nan, _ => false
  | _, nan => false
  | num a, num b => decide (a ≤ b)
  | _, pinf => true
  | pinf, _ => false
  | ninf, _ => true
  | num _, ninf => false

/-- The JavaScript `<` comparison: false whenever an operand is `NaN`. -/
def lt : JF → JF → Bool
  | nan, _ => false
  | _, nan => false
  | num a, num b => decide (a < b)
  | pinf, _ => false
  | _, pinf => true
  | ninf, ninf => false
  | ninf, _ => true
  | num _, ninf => false

/-- `Math.min`: `NaN` absorbs. -/
def jmin : JF → JF → JF
  | nan, _ => nan
  | _, nan => nan
  | a, b => if lt a b then a else b

/-- `Math.max`: `NaN` absorbs. -/
def jmax : JF → JF → JF
  | nan, _ => nan
  | _, nan => nan
  | a, b => if lt a b then b else a

/-- `Math.sqrt` on the float model (negative arguments give `NaN`). -/
def sqrt : JF → JF
  | nan => nan
  | pinf => pinf
  | ninf => nan
  | num q => if q < 0 then nan else num (sqrtQ q)

end JF

/-- `MapManager.rectCollision`: the plain AABB overlap test with strict
inequalities. -/
def rectCollision (x1 y1 w1 h1 x2 y2 w2 h2 : ℚ) : Bool :=
  decide (x1 < x2 + w2) && decide (x1 + w1 > x2) &&
  decide (y1 < y2 + h2) && decide (y1 + h1 > y2)

/-- Length of an optional polygon array (`0` when absent, as the source guard
`obj.polygon && obj.polygon.length >= 3` is false for `null`). -/
def polygonLen (o : Option (List Pt)) : ℕ :=
  match o with
  | some l => l.length
  | none => 0

/-- JavaScript truthiness of an optional numeric `radius` field: present and
nonzero. -/
def radiusTruthy (r : Option ℚ) : Bool :=
  match r with
  | some v => decide (v ≠ 0)
  | none => false

/-- `MapManager.detectShapeType`: polygon data of length at least 3 gives
`triangle` (length exactly 3) or `polygon`; otherwise a truthy radius or a
square positive size gives `circle`; otherwise `rectangle` (the source's
explicit rotated-rectangle branch also returns `'rectangle'`). -/
def detectShapeType (obj : RawObject) : Shape :=
  if obj.polygon.isSome ∧ 3 ≤ polygonLen obj.polygon then
    (if polygonLen obj.polygon = 3 then Shape.triangle else Shape.polygon)
  else if radiusTruthy obj.radius = true ∨ (obj.width = obj.height ∧ 0 < obj.width) then
    Shape.circle
  else if obj.rotation.getD 0 ≠ 0 then
    Shape.rectangle
  else
    Shape.rectangle

/-- Modelled from the spec (claim C4's wording): a polygon array of length at
least 4 is `polygon`; length exactly 3 is `triangle`; otherwise a truthy
radius or a square positive size is `circle`; all remaining objects are
`rectangle`. -/
def classifySpec (obj : RawObject) : Shape :=
  if obj.polygon.isSome ∧ 4 ≤ polygonLen obj.polygon then Shape.polygon
  else if obj.polygon.isSome ∧ polygonLen obj.polygon = 3 then Shape.triangle
  else if radiusTruthy obj.radius = true ∨ (obj.width = obj.height ∧ 0 < obj.width) then
    Shape.circle
  else Shape.rectangle

/-- `MapManager.pointInPolygon` (also duplicated verbatim as
`HouseInteraction.pointInPolygon`): even-odd ray casting.  The loop index `j`
is the predecessor of `i`, starting at `length - 1`.  The division is only
reached when the first conjunct guarantees the two `y` coordinates differ. -/
def pointInPolygon (point : Pt) (polygon : List Pt) : Bool :=
  (List.range polygon.length).foldl
    (fun inside i =>
      let vi := polygon.getD i ⟨0, 0⟩
      let vj := polygon.getD (if i = 0 then polygon.length - 1 else i - 1) ⟨0, 0⟩
      if (decide (vi.y > point.y) ≠ decide (vj.y > point.y)) ∧
          point.x < (vj.x - vi.x) * (point.y - vi.y) / (vj.y - vi.y) + vi.x then
        !inside
      else inside)
    false

/-- `MapManager.lineIntersection`: parametric segment-segment intersection;
a near-zero determinant (below `1e-10`) is treated as parallel. -/
def lineIntersection (x1 y1 x2 y2 x3 y3 x4 y4 : ℚ) : Bool :=
  let denom := (x1 - x2) * (y3 - y4) - (y1 - y2) * (x3 - x4)
  if |denom| < 1 / 10000000000 then false
  else
    let t := ((x1 - x3) * (y3 - y4) - (y1 - y3) * (x3 - x4)) / denom
    let u := -((x1 - x2) * (y1 - y3) - (y1 - y2) * (x1 - x3)) / denom
    decide (0 ≤ t) && decide (t ≤ 1) && decide (0 ≤ u) && decide (u ≤ 1)

/-- The four corners of the player rectangle, in the order the source lists
them in `checkTriangleCollision`, `checkPolygonCollision` and the house
predicates. -/
def playerCorners (px py pw ph : ℚ) : List Pt :=
  [⟨px, py⟩, ⟨px + pw, py⟩, ⟨px, py + ph⟩, ⟨px + pw, py + ph⟩]

/-- `MapManager.rectanglePolygonIntersection`: each of the four rectangle
edges is tested against each polygon edge. -/
def rectanglePolygonIntersection (rectX rectY rectWidth rectHeight : ℚ)
    (polygonPoints : List Pt) : Bool :=
  let rectEdges : List (ℚ × ℚ × ℚ × ℚ) :=
    [(rectX, rectY, rectX + rectWidth, rectY),
     (rectX + rectWidth, rectY, rectX + rectWidth, rectY + rectHeight),
     (rectX, rectY + rectHeight, rectX + rectWidth, rectY + rectHeight),
     (rectX, rectY, rectX, rectY + rectHeight)]
  (List.range polygonPoints.length).any (fun i =>
    let p1 := polygonPoints.getD i ⟨0, 0⟩
    let p2 := polygonPoints.getD ((i + 1) % polygonPoints.length) ⟨0, 0⟩
    rectEdges.any (fun e =>
      lineIntersection e.1 e.2.1 e.2.2.1 e.2.2.2 p1.x p1.y p2.x p2.y))

/-- `MapManager.checkPolygonCollision`: invalid polygon data (absent, or
fewer than 3 vertices) reports no collision; otherwise a collision is any
player corner inside the polygon, any polygon vertex inside the player
rectangle (inclusive bounds), or any edge intersection. -/
def checkPolygonCollision (playerX playerY playerWidth playerHeight : ℚ)
    (polygon : Wall) : Bool :=
  match polygon.polygon with
  | none => false
  | some poly =>
    if poly.length < 3 then false
    else
      let worldPoints := poly.map (fun point => Pt.mk (polygon.x + point.x) (polygon.y + point.y))
      ((playerCorners playerX playerY playerWidth playerHeight).any
        (fun corner => pointInPolygon corner worldPoints)) ||
      (worldPoints.any (fun point =>
        decide (playerX ≤ point.x) && decide (point.x ≤ playerX + playerWidth) &&
        decide (playerY ≤ point.y) && decide (point.y ≤ playerY + playerHeight))) ||
      rectanglePolygonIntersection playerX playerY playerWidth playerHeight worldPoints

/-- `MapManager.pointInTriangle`: the barycentric sign test.  The source
divides by the (possibly zero) denominator without a guard, so the quotients
are computed in the float model `JF`; the comparisons are the JavaScript
`>= 0` tests, false on `NaN`. -/
def pointInTriangle (point a b c : Pt) : Bool :=
  let denom : ℚ := (b.y - c.y) * (a.x - c.x) + (c.x - b.x) * (a.y - c.y)
  let alpha := JF.div
    (JF.num ((b.y - c.y) * (point.x - c.x) + (c.x - b.x) * (point.y - c.y)))
    (JF.num denom)
  let beta := JF.div
    (JF.num ((c.y - a.y) * (point.x - c.x) + (a.x - c.x) * (point.y - c.y)))
    (JF.num denom)
  let gamma := JF.sub (JF.sub (JF.num 1) alpha) beta
  JF.le (JF.num 0) alpha && JF.le (JF.num 0) beta && JF.le (JF.num 0) gamma

/-- The triangle vertices of `checkTriangleCollision`: the explicit `points`
array if present (any non-null array is truthy in JavaScript), else the
default apex/base layout derived from the bounding box. -/
def trianglePoints (triangle : Wall) : List Pt :=
  match triangle.points with
  | some pts => pts
  | none =>
      [⟨triangle.x + triangle.width / 2, triangle.y⟩,
       ⟨triangle.x, triangle.y + triangle.height⟩,
       ⟨triangle.x + triangle.width, triangle.y + triangle.height⟩]

/-- `MapManager.checkTriangleCollision`: any player corner inside the
triangle, or any triangle vertex inside the player rectangle (inclusive
bounds). -/
def checkTriangleCollision (playerX playerY playerWidth playerHeight : ℚ)
    (triangle : Wall) : Bool :=
  let points := trianglePoints triangle
  ((playerCorners playerX playerY playerWidth playerHeight).any
    (fun corner =>
      pointInTriangle corner (points.getD 0 ⟨0, 0⟩) (points.getD 1 ⟨0, 0⟩)
        (points.getD 2 ⟨0, 0⟩))) ||
  (points.any (fun point =>
    decide (playerX ≤ point.x) && decide (point.x ≤ playerX + playerWidth) &&
    decide (playerY ≤ point.y) && decide (point.y ≤ playerY + playerHeight)))

/-- JavaScript `circle.radius || alt`: the radius when present and nonzero,
else the alternative. -/
def radiusOrElse (w : Wall) (alt : ℚ) : ℚ :=
  match w.radius with
  | some r => if r = 0 then alt else r
  | none => alt

/-- `MapManager.checkCircleCollision`: Euclidean center distance strictly
below the sum of the obstacle radius and the player radius
`min(playerWidth, playerHeight) / 2`. -/
def checkCircleCollision (playerX playerY playerWidth playerHeight : ℚ)
    (circle : Wall) : Bool :=
  let circleCenterX := circle.x + radiusOrElse circle (circle.width / 2)
  let circleCenterY := circle.y + radiusOrElse circle (circle.height / 2)
  let radius := radiusOrElse circle (min circle.width circle.height / 2)
  let playerCenterX := playerX + playerWidth / 2
  let playerCenterY := playerY + playerHeight / 2
  let dx := playerCenterX - circleCenterX
  let dy := playerCenterY - circleCenterY
  let distance := sqrtQ (dx * dx + dy * dy)
  decide (distance < radius + min playerWidth playerHeight / 2)

def ratPi : ℚ := 314159265358979323846 / 100000000000000000000

/-- Truncated Taylor series for the cosine; exact at `0`.  No theorem depends
on its value away from `0`. -/
def cosQ (x : ℚ) : ℚ :=
  1 - x ^ 2 / 2 + x ^ 4 / 24 - x ^ 6 / 720 + x ^ 8 / 40320

/-- Truncated Taylor series for the sine; exact at `0`.  No theorem depends
on its value away from `0`. -/
def sinQ (x : ℚ) : ℚ :=
  x - x ^ 3 / 6 + x ^ 5 / 120 - x ^ 7 / 5040

/-- The corner map of `MapManager.getRotatedCorners`, with the cosine and
sine of the rotation angle passed in as `c` and `s`: the four corners of the
`width × height` box rotated about `(x, y)`. -/
def getRotatedCornersWith (x y width height c s : ℚ) : List Pt :=
  ([⟨0, 0⟩, ⟨width, 0⟩, ⟨width, height⟩, ⟨0, height⟩] : List Pt).map
    (fun corner => ⟨x + corner.x * c - corner.y * s, y + corner.x * s + corner.y * c⟩)

/-- `MapManager.getRotatedCorners`: degrees to radians, then the rotation
map.  `Math.cos`/`Math.sin` are modelled by `cosQ`/`sinQ` (exact at rotation
`0`, the only value any theorem computes with). -/
def getRotatedCorners (x y width height rotation : ℚ) : List Pt :=
  getRotatedCornersWith x y width height
    (cosQ (rotation * ratPi / 180)) (sinQ (rotation * ratPi / 180))

/-- The dot product of `MapManager.projectShape`, in the float model. -/
def dotJF (p : Pt) (ax : JF × JF) : JF :=
  JF.add (JF.mul (JF.num p.x) ax.1) (JF.mul (JF.num p.y) ax.2)

/-- `MapManager.projectShape`: fold of `Math.min`/`Math.max` over the dot
products, started at `Infinity`/`-Infinity` as in the source. -/
def projectShape (shape : List Pt) (ax : JF × JF) : JF × JF :=
  shape.foldl
    (fun mm p => (JF.jmin mm.1 (dotJF p ax), JF.jmax mm.2 (dotJF p ax)))
    (JF.pinf, JF.ninf)

/-- `MapManager.overlap`: `proj1.max >= proj2.min && proj2.max >= proj1.min`
(JavaScript `>=`, false on `NaN`). -/
def overlap (proj1 proj2 : JF × JF) : Bool :=
  JF.le proj2.1 proj1.2 && JF.le proj1.1 proj2.2

/-- One iteration of the inner loop of `MapManager.satCollision`: the edge
normal of `currentShape` at index `i`, normalized by its (unguarded) length,
then the projection overlap test of both shapes.  A zero-length axis divides
`0 / 0` and produces `NaN` projections, as in IEEE arithmetic. -/
def satAxisCheck (currentShape otherShape : List Pt) (i : ℕ) : Bool :=
  let p1 := currentShape.getD i ⟨0, 0⟩
  let p2 := currentShape.getD ((i + 1) % currentShape.length) ⟨0, 0⟩
  let ax : JF × JF := (JF.num (p2.y - p1.y), JF.num (p1.x - p2.x))
  let length := JF.sqrt (JF.add (JF.mul ax.1 ax.1) (JF.mul ax.2 ax.2))
  let axn : JF × JF := (JF.div ax.1 length, JF.div ax.2 length)
  overlap (projectShape currentShape axn) (projectShape otherShape axn)

/-- `MapManager.satCollision`: no axis of either shape may separate; the
source's early `return false` at the first failing axis is the short-circuit
of the conjunction. -/
def satCollision (shape1 shape2 : List Pt) : Bool :=
  ((List.range shape1.length).all (satAxisCheck shape1 shape2)) &&
  ((List.range shape2.length).all (satAxisCheck shape2 shape1))

/-- `MapManager.checkRotatedRectangleCollision`: plain AABB test at rotation
`0`, otherwise SAT over the two corner quadrilaterals. -/
def checkRotatedRectangleCollision (playerX playerY playerWidth playerHeight : ℚ)
    (wall : Wall) : Bool :=
  if wall.rotation = 0 then
    rectCollision playerX playerY playerWidth playerHeight wall.x wall.y wall.width wall.height
  else
    satCollision
      (getRotatedCorners playerX playerY playerWidth playerHeight 0)
      (getRotatedCorners wall.x wall.y wall.width wall.height wall.rotation)

/-- `MapManager.checkShapeCollision`: dispatch on the shape tag (the `switch`
whose `default` shares the rectangle branch). -/
def checkShapeCollision (playerX playerY playerWidth playerHeight : ℚ)
    (wall : Wall) : Bool :=
  match wall.shape with
  | Shape.circle => checkCircleCollision playerX playerY playerWidth playerHeight wall
  | Shape.triangle => checkTriangleCollision playerX playerY playerWidth playerHeight wall
  | Shape.polygon => checkPolygonCollision playerX playerY playerWidth playerHeight wall
  | Shape.rectangle => checkRotatedRectangleCollision playerX playerY playerWidth playerHeight wall

/-- The grid cell size, `this.gridSize = 100` in the `MapManager`
constructor. -/
def gridSize : ℚ := 100

/-- `Math.min(...)` over a nonempty spread (the source guards the list to be
nonempty; the empty case, which JavaScript would send to `Infinity`, is
unreachable and mapped to `0`). -/
def listMin : List ℚ → ℚ
  | [] => 0
  | x :: xs => xs.foldl min x

/-- `Math.max(...)` over a nonempty spread (empty case unreachable, mapped to
`0`). -/
def listMax : List ℚ → ℚ
  | [] => 0
  | x :: xs => xs.foldl max x

/-- The world bounding box computed per obstacle in
`MapManager.updateSpatialGrid`: the vertex bounding box when the shape tag is
`polygon` and polygon data is nonempty, else the `(x, y, x + width,
y + height)` box.  Returned as `(minX, minY, maxX, maxY)`. -/
def wallBBox (wall : Wall) : ℚ × ℚ × ℚ × ℚ :=
  match wall.shape, wall.polygon with
  | Shape.polygon, some poly =>
      if 0 < poly.length then
        let worldPoints := poly.map (fun point => Pt.mk (wall.x + point.x) (wall.y + point.y))
        (listMin (worldPoints.map Pt.x), listMin (worldPoints.map Pt.y),
         listMax (worldPoints.map Pt.x), listMax (worldPoints.map Pt.y))
      else
        (wall.x, wall.y, wall.x + wall.width, wall.y + wall.height)
  | _, _ => (wall.x, wall.y, wall.x + wall.width, wall.y + wall.height)

/-- Modelled from the spec (claim C1's wording): the obstacle's world-space
axis-aligned bounding box — for polygon and triangle kinds, the bounding box
of all vertices in world coordinates; for rectangle and circle kinds, the box
from position and size ignoring rotation.  This differs from the source's
`wallBBox`, which uses the vertex box only for the `polygon` kind. -/
def specWallAABB (wall : Wall) : ℚ × ℚ × ℚ × ℚ :=
  match wall.shape, wall.polygon with
  | Shape.polygon, some poly | Shape.triangle, some poly =>
      if 0 < poly.length then
        let worldPoints := poly.map (fun point => Pt.mk (wall.x + point.x) (wall.y + point.y))
        (listMin (worldPoints.map Pt.x), listMin (worldPoints.map Pt.y),
         listMax (worldPoints.map Pt.x), listMax (worldPoints.map Pt.y))
      else
        (wall.x, wall.y, wall.x + wall.width, wall.y + wall.height)
  | _, _ => (wall.x, wall.y, wall.x + wall.width, wall.y + wall.height)

/-- The integers from `a` to `b` inclusive (a `for` loop range). -/
def intRange (a b : ℤ) : List ℤ :=
  (List.range (b + 1 - a).toNat).map (fun k : ℕ => a + (k : ℤ))

/-- The grid cells spanned by a bounding box: the nested loops
`for gridX in [floor(minX / gridSize), floor(maxX / gridSize)]`,
`for gridY in [floor(minY / gridSize), floor(maxY / gridSize)]`, shared by
`updateSpatialGrid` and the query side of `checkCollision`. -/
def cellCoords (minX minY maxX maxY : ℚ) : List (ℤ × ℤ) :=
  (intRange ⌊minX / gridSize⌋ ⌊maxX / gridSize⌋).flatMap (fun gridX =>
    (intRange ⌊minY / gridSize⌋ ⌊maxY / gridSize⌋).map (fun gridY => (gridX, gridY)))

/-- The cells an obstacle is inserted into by `updateSpatialGrid`. -/
def wallCells (wall : Wall) : List (ℤ × ℤ) :=
  (cellCoords (wallBBox wall).1 (wallBBox wall).2.1 (wallBBox wall).2.2.1
    (wallBBox wall).2.2.2)

/-- The insertion loop of `updateSpatialGrid` over an indexed obstacle list:
each obstacle index is pushed onto the list of every cell its bounding box
spans.  The `Map` with `get(key) || []` is modelled as a total function that
is `[]` off the inserted keys. -/
def buildGrid : List (ℕ × Wall) → ((ℤ × ℤ) → List ℕ) → ((ℤ × ℤ) → List ℕ)
  | [], g => g
  | (i, wall) :: rest, g =>
      buildGrid rest
        ((wallCells wall).foldl
          (fun g' cell => fun key => if key = cell then g' key ++ [i] else g' key) g)

/-- `MapManager.updateSpatialGrid`: clear, then insert every obstacle index
into all cells its bounding box overlaps. -/
def updateSpatialGrid (walls : List Wall) : (ℤ × ℤ) → List ℕ :=
  buildGrid walls.enum (fun _ => [])

/-- The cell range scanned by `MapManager.checkCollision` for a query
rectangle. -/
def queryCells (x y width height : ℚ) : List (ℤ × ℤ) :=
  cellCoords x y (x + width) (y + height)

/-- The obstacle indices `checkCollision` iterates over: the concatenation of
the cell lists over the scanned range (the source does not deduplicate across
cells). -/
def queryCandidates (walls : List Wall) (x y width height : ℚ) : List ℕ :=
  (queryCells x y width height).flatMap (fun cell => updateSpatialGrid walls cell)

/-- The narrow-phase test `checkCollision` applies to one candidate index:
`checkShapeCollision` on the indexed obstacle.  An out-of-range index (which
`updateSpatialGrid` never produces, see `grid_indices_always_valid`) is
mapped to `false`. -/
def narrowPhase (walls : List Wall) (x y width height : ℚ) (i : ℕ) : Bool :=
  match walls.get? i with
  | some wall => checkShapeCollision x y width height wall
  | none => false

/-- `MapManager.checkCollision`: `true` when the rectangle leaves the map
bounds, else `true` exactly when some candidate obstacle from the scanned
grid cells narrow-phase collides. -/
def checkCollision (m : MapManagerState) (x y width height : ℚ) : Bool :=
  let mapWidth := m.width * m.tileWidth
  let mapHeight := m.height * m.tileHeight
  if x < 0 ∨ y < 0 ∨ x + width > mapWidth ∨ y + height > mapHeight then true
  else
    (queryCandidates m.collisionLayer x y width height).any
      (narrowPhase m.collisionLayer x y width height)

/-- `Player.move`: the horizontal axis is tested and committed first, then
the vertical axis is tested at the already-updated horizontal position. -/
def Player.move (m : MapManagerState) (p : PlayerState) (deltaX deltaY : ℚ) : PlayerState :=
  let p1 :=
    if deltaX ≠ 0 then
      (if checkCollision m (p.x + deltaX) p.y p.width p.height = false then
        { p with x := p.x + deltaX }
      else p)
    else p
  if deltaY ≠ 0 then
    (if checkCollision m p1.x (p1.y + deltaY) p1.width p1.height = false then
      { p1 with y := p1.y + deltaY }
    else p1)
  else p1

/-- `HouseInteraction.checkHousePolygonCollision`: like the obstacle polygon
test but without the edge-intersection fallback. -/
def checkHousePolygonCollision (playerX playerY playerWidth playerHeight : ℚ)
    (house : House) : Bool :=
  match house.polygon with
  | none => false
  | some poly =>
    if poly.length < 3 then false
    else
      let worldPoints := poly.map (fun point => Pt.mk (house.x + point.x) (house.y + point.y))
      ((playerCorners playerX playerY playerWidth playerHeight).any
        (fun corner => pointInPolygon corner worldPoints)) ||
      (worldPoints.any (fun point =>
        decide (playerX ≤ point.x) && decide (point.x ≤ playerX + playerWidth) &&
        decide (playerY ≤ point.y) && decide (point.y ≤ playerY + playerHeight)))

/-- `HouseInteraction.checkHouseEllipseCollision`: any player corner
satisfies the normalized ellipse inequality.  The divisions by the squared
half-axes are unguarded in the source, hence computed in the float model. -/
def checkHouseEllipseCollision (playerX playerY playerWidth playerHeight : ℚ)
    (house : House) : Bool :=
  let centerX := house.x + house.width / 2
  let centerY := house.y + house.height / 2
  let radiusX := house.width / 2
  let radiusY := house.height / 2
  (playerCorners playerX playerY playerWidth playerHeight).any (fun corner =>
    let normalizedX := JF.div (JF.num ((corner.x - centerX) * (corner.x - centerX)))
      (JF.num (radiusX * radiusX))
    let normalizedY := JF.div (JF.num ((corner.y - centerY) * (corner.y - centerY)))
      (JF.num (radiusY * radiusY))
    JF.le (JF.add normalizedX normalizedY) (JF.num 1))

/-- `HouseInteraction.checkHouseRectangleCollision`: AABB overlap as the
negation of full disjointness (inclusive boundaries). -/
def checkHouseRectangleCollision (playerX playerY playerWidth playerHeight : ℚ)
    (house : House) : Bool :=
  !(decide (playerX + playerWidth < house.x) ||
    decide (playerX > house.x + house.width) ||
    decide (playerY + playerHeight < house.y) ||
    decide (playerY > house.y + house.height))

/-- The per-house membership `switch` of
`HouseInteraction.checkProximityToHouses`, including the `default` distance
fallback. -/
def houseInside (playerX playerY playerWidth playerHeight : ℚ) (house : House) : Bool :=
  match house.shape with
  | HouseShape.polygon =>
      checkHousePolygonCollision playerX playerY playerWidth playerHeight house
  | HouseShape.ellipse =>
      checkHouseEllipseCollision playerX playerY playerWidth playerHeight house
  | HouseShape.rectangle =>
      checkHouseRectangleCollision playerX playerY playerWidth playerHeight house
  | HouseShape.other =>
      let distance := sqrtQ ((playerX - house.centerX) * (playerX - house.centerX) +
        (playerY - house.centerY) * (playerY - house.centerY))
      decide (distance ≤ house.radius)

/-- The scan of `HouseInteraction.checkProximityToHouses`: houses are visited
in list order and the loop `break`s at the first one the player is inside
(`nearestHouse`), yielding `none` when no house matches. -/
def checkProximityToHouses (houses : List House)
    (playerX playerY playerWidth playerHeight : ℚ) : Option House :=
  houses.find? (houseInside playerX playerY playerWidth playerHeight)

/-- An axis-aligned `10 × 10` rectangle obstacle at the origin, used by
concrete witnesses. -/
def wallW : Wall :=
  { x := 0, y := 0, width := 10, height := 10, rotation := 0,
    shape := Shape.rectangle, polygon := none, radius := none, points := none }

/-- A `100 × 10` rectangle obstacle whose bounding box spans two grid cells,
used by the candidate-duplication counterexample. -/
def wallC7 : Wall :=
  { x := 50, y := 50, width := 100, height := 10, rotation := 0,
    shape := Shape.rectangle, polygon := none, radius := none, points := none }

/-- A 3-vertex polygon object: classified as a triangle, its grid bounding
box is the degenerate position-and-size box, not the vertex box the claim
describes. -/
def triWall : Wall :=
  { x := 0, y := 0, width := 0, height := 0, rotation := 0,
    shape := Shape.triangle, polygon := some [⟨0, 0⟩, ⟨300, 0⟩, ⟨0, 300⟩],
    radius := none, points := none }

/-- The map-boundary test of `checkCollision`, as the claim states it. -/
def mapOutOfBounds (m : MapManagerState) (x y width height : ℚ) : Prop :=
  x < 0 ∨ y < 0 ∨ x + width > m.width * m.tileWidth ∨ y + height > m.height * m.tileHeight

instance (m : MapManagerState) (x y width height : ℚ) :
    Decidable (mapOutOfBounds m x y width height) := by
  unfold mapOutOfBounds
  infer_instance

/-- A non-rotated `5 × 5` rectangle obstacle at `(5, 0)`, whose left edge the
witness player touches exactly. -/
def wallR : Wall :=
  { x := 5, y := 0, width := 5, height := 5, rotation := 0,
    shape := Shape.rectangle, polygon := none, radius := none, points := none }

/-- The earlier-declared of two overlapping rectangular zones. -/
def houseA : House :=
  { name := "A", x := 0, y := 0, width := 100, height := 100,
    centerX := 50, centerY := 50, radius := 50,
    shape := HouseShape.rectangle, polygon := none }

/-- The later-declared of two overlapping rectangular zones. -/
def houseB : House :=
  { name := "B", x := 50, y := 50, width := 100, height := 100,
    centerX := 100, centerY := 100, radius := 50,
    shape := HouseShape.rectangle, polygon := none }

/-- A thin vertical polygon-strip zone crossed by the witness body. -/
def houseStrip : House :=
  { name := "strip", x := 0, y := 0, width := 0, height := 0,
    centerX := 0, centerY := 0, radius := 0,
    shape := HouseShape.polygon,
    polygon := some [⟨4, 0⟩, ⟨6, 0⟩, ⟨6, 100⟩, ⟨4, 100⟩] }

/-- A malformed polygon obstacle with only two vertices. -/
def wallPoly2 : Wall :=
  { x := 0, y := 0, width := 0, height := 0, rotation := 0,
    shape := Shape.polygon, polygon := some [⟨0, 0⟩, ⟨5, 0⟩],
    radius := none, points := none }

/-- The dot product `point.x * axis.x + point.y * axis.y` of `projectShape`,
on rational axes. -/
def qdot (p : Pt) (u v : ℚ) : ℚ := p.x * u + p.y * v

/-- Modelled from the spec: the projected interval (`min`, `max`) of a corner
list on a rational axis — the interval `projectShape` computes, with no float
special values involved. -/
def qProj (shape : List Pt) (u v : ℚ) : ℚ × ℚ :=
  match shape with
  | [] => (0, 0)
  | p :: ps =>
      ps.foldl (fun mm pq => (min mm.1 (qdot pq u v), max mm.2 (qdot pq u v)))
        (qdot p u v, qdot p u v)

/-- Modelled from the spec: the unnormalized edge-normal axis at corner index
`i` — the axis `satCollision` builds from corners `i` and `i + 1` before
dividing by its length. -/
def axisAt (shape : List Pt) (i : ℕ) : ℚ × ℚ :=
  ((shape.getD ((i + 1) % shape.length) ⟨0, 0⟩).y - (shape.getD i ⟨0, 0⟩).y,
   (shape.getD i ⟨0, 0⟩).x - (shape.getD ((i + 1) % shape.length) ⟨0, 0⟩).x)

/-- Modelled from the spec: the edge-normal axes of a corner quadrilateral,
one per corner. -/
def edgeNormals (shape : List Pt) : List (ℚ × ℚ) :=
  (List.range shape.length).map (axisAt shape)

/-- Modelled from the spec: an axis is separating exactly when the projected
intervals satisfy `max1 < min2` or `max2 < min1`. -/
def separatingAxis (s1 s2 : List Pt) (ax : ℚ × ℚ) : Prop :=
  (qProj s1 ax.1 ax.2).2 < (qProj s2 ax.1 ax.2).1 ∨
  (qProj s2 ax.1 ax.2).2 < (qProj s1 ax.1 ax.2).1

/-- A rotated rectangle obstacle (90 degrees), used by the SAT witness. -/
def wallRot : Wall :=
  { x := 5, y := 0, width := 1, height := 1, rotation := 90,
    shape := Shape.rectangle, polygon := none, radius := none, points := none }

theorem newtonSqrt_pos (q : ℚ) (hq : 0 < q) : ∀ n, 0 < newtonSqrt q n := by
  intro n
  induction n with
  | zero => simpa [newtonSqrt] using by positivity
  | succ n ih =>
      have h1 : 0 < q / newtonSqrt q n := div_pos hq ih
      simp only [newtonSqrt]
      positivity

theorem sqrtQ_zero : sqrtQ 0 = 0 := by simp [sqrtQ]

theorem sqrtQ_pos {q : ℚ} (hq : 0 < q) : 0 < sqrtQ q := by
  rw [sqrtQ, if_neg (by linarith)]
  exact newtonSqrt_pos q hq 8

namespace JF

@[simp] theorem add_num (a b : ℚ) : add (num a) (num b) = num (a + b) := rfl

@[simp] theorem sub_num (a b : ℚ) : sub (num a) (num b) = num (a - b) := by
  simp [sub, add, neg, sub_eq_add_neg]

@[simp] theorem mul_num (a b : ℚ) : mul (num a) (num b) = num (a * b) := rfl

theorem div_num {a b : ℚ} (hb : b ≠ 0) : div (num a) (num b) = num (a / b) := by
  simp [div, hb]

@[simp] theorem le_num (a b : ℚ) : le (num a) (num b) = decide (a ≤ b) := rfl

@[simp] theorem lt_num (a b : ℚ) : lt (num a) (num b) = decide (a < b) := rfl

@[simp] theorem jmin_num (a b : ℚ) : jmin (num a) (num b) = num (min a b) := by
  by_cases h : a < b
  · simp [jmin, h, min_eq_left h.le]
  · simp [jmin, h, min_eq_right (le_of_not_lt h)]

@[simp] theorem jmax_num (a b : ℚ) : jmax (num a) (num b) = num (max a b) := by
  by_cases h : a < b
  · simp [jmax, h, max_eq_right h.le]
  · simp [jmax, h, max_eq_left (le_of_not_lt h)]

@[simp] theorem jmin_pinf_num (a : ℚ) : jmin pinf (num a) = num a := by
  simp [jmin, lt]

@[simp] theorem jmax_ninf_num (a : ℚ) : jmax ninf (num a) = num a := by
  simp [jmax, lt]

@[simp] theorem le_nan_right (a : JF) : le a nan = false := by cases a <;> rfl

@[simp] theorem le_nan_left (a : JF) : le nan a = false := by cases a <;> rfl

@[simp] theorem jmin_nan_right (a : JF) : jmin a nan = nan := by cases a <;> rfl

@[simp] theorem jmax_nan_right (a : JF) : jmax a nan = nan := by cases a <;> rfl

@[simp] theorem mul_num_nan (a : ℚ) : mul (num a) nan = nan := rfl

@[simp] theorem add_nan_left (a : JF) : add nan a = nan := by cases a <;> rfl

@[simp] theorem sqrt_num (q : ℚ) (h : ¬ q < 0) : sqrt (num q) = num (sqrtQ q) := by
  simp [sqrt, h]

end JF

/-- A rational stand-in for `Math.PI` (its first 20 decimal digits).  No
theorem depends on its value. -/

theorem foldl_min_le_init (xs : List ℚ) : ∀ acc : ℚ, xs.foldl min acc ≤ acc := by
  induction xs with
  | nil => intro acc; simp
  | cons a xs ih =>
      intro acc
      simp only [List.foldl_cons]
      exact le_trans (ih (min acc a)) (min_le_left _ _)

theorem init_le_foldl_max (xs : List ℚ) : ∀ acc : ℚ, acc ≤ xs.foldl max acc := by
  induction xs with
  | nil => intro acc; simp
  | cons a xs ih =>
      intro acc
      simp only [List.foldl_cons]
      exact le_trans (le_max_left _ _) (ih (max acc a))

theorem listMin_le_listMax (l : List ℚ) (h : l ≠ []) : listMin l ≤ listMax l := by
  cases l with
  | nil => exact absurd rfl h
  | cons x xs =>
      calc listMin (x :: xs) ≤ x := foldl_min_le_init xs x
        _ ≤ listMax (x :: xs) := init_le_foldl_max xs x

theorem wallBBox_wf (wall : Wall) (hw : 0 ≤ wall.width) (hh : 0 ≤ wall.height) :
    (wallBBox wall).1 ≤ (wallBBox wall).2.2.1 ∧ (wallBBox wall).2.1 ≤ (wallBBox wall).2.2.2 := by
  unfold wallBBox
  rcases hs : wall.shape <;> rcases hp : wall.polygon with _ | poly <;>
    simp only [] <;>
    try exact ⟨by linarith, by linarith⟩
  by_cases hlen : 0 < poly.length
  · have hne : poly ≠ [] := by
      cases poly
      · simp at hlen
      · simp
    have hmapne : ∀ f : Pt → ℚ,
        (poly.map (fun point => Pt.mk (wall.x + point.x) (wall.y + point.y))).map f ≠ [] := by
      intro f
      simp [hne]
    simp only [hlen, if_true]
    exact ⟨listMin_le_listMax _ (hmapne _), listMin_le_listMax _ (hmapne _)⟩
  · simp only [hlen, if_false]
    exact ⟨by linarith, by linarith⟩

theorem intRange_mem (a b c : ℤ) : c ∈ intRange a b ↔ a ≤ c ∧ c ≤ b := by
  simp only [intRange, List.mem_map, List.mem_range]
  constructor
  · rintro ⟨k, hk, hke⟩
    omega
  · rintro ⟨h1, h2⟩
    exact ⟨(c - a).toNat, by omega, by omega⟩

theorem cellCoords_mem (minX minY maxX maxY : ℚ) (cell : ℤ × ℤ) :
    cell ∈ cellCoords minX minY maxX maxY ↔
      ⌊minX / gridSize⌋ ≤ cell.1 ∧ cell.1 ≤ ⌊maxX / gridSize⌋ ∧
      ⌊minY / gridSize⌋ ≤ cell.2 ∧ cell.2 ≤ ⌊maxY / gridSize⌋ := by
  obtain ⟨c1, c2⟩ := cell
  simp only [cellCoords, List.mem_flatMap, List.mem_map, intRange_mem, Prod.mk.injEq]
  constructor
  · rintro ⟨gx, ⟨h1, h2⟩, gy, ⟨h3, h4⟩, rfl, rfl⟩
    exact ⟨h1, h2, h3, h4⟩
  · rintro ⟨h1, h2, h3, h4⟩
    exact ⟨c1, ⟨h1, h2⟩, c2, ⟨h3, h4⟩, rfl, rfl⟩

theorem cellsFold_mem (cells : List (ℤ × ℤ)) (g : (ℤ × ℤ) → List ℕ) (i : ℕ)
    (key : ℤ × ℤ) (j : ℕ) :
    j ∈ (cells.foldl (fun g' cell => fun k => if k = cell then g' k ++ [i] else g' k) g) key ↔
      j ∈ g key ∨ (j = i ∧ key ∈ cells) := by
  induction cells generalizing g with
  | nil => simp
  | cons c cs ih =>
      simp only [List.foldl_cons]
      rw [ih]
      by_cases hk : key = c
      · subst hk
        simp only [eq_self_iff_true, if_true, List.mem_append, List.mem_singleton,
          List.mem_cons]
        tauto
      · simp only [if_neg hk, List.mem_cons]
        tauto

theorem buildGrid_mem (l : List (ℕ × Wall)) (g : (ℤ × ℤ) → List ℕ) (key : ℤ × ℤ) (j : ℕ) :
    j ∈ buildGrid l g key ↔ j ∈ g key ∨ ∃ w : Wall, (j, w) ∈ l ∧ key ∈ wallCells w := by
  induction l generalizing g with
  | nil => simp [buildGrid]
  | cons p rest ih =>
      obtain ⟨i, w⟩ := p
      simp only [buildGrid]
      rw [ih, cellsFold_mem]
      simp only [List.mem_cons, Prod.mk.injEq]
      constructor
      · rintro ((hg | ⟨rfl, hc⟩) | ⟨w', hw', hc'⟩)
        · exact Or.inl hg
        · exact Or.inr ⟨w, Or.inl ⟨rfl, rfl⟩, hc⟩
        · exact Or.inr ⟨w', Or.inr hw', hc'⟩
      · rintro (hg | ⟨w', ⟨rfl, rfl⟩ | hw', hc'⟩)
        · exact Or.inl (Or.inl hg)
        · exact Or.inl (Or.inr ⟨rfl, hc'⟩)
        · exact Or.inr ⟨w', hw', hc'⟩

theorem updateSpatialGrid_mem (walls : List Wall) (key : ℤ × ℤ) (j : ℕ) :
    j ∈ updateSpatialGrid walls key ↔ ∃ w, walls.get? j = some w ∧ key ∈ wallCells w := by
  unfold updateSpatialGrid
  rw [buildGrid_mem]
  simp only [List.not_mem_nil, false_or]
  constructor
  · rintro ⟨w, hw, hc⟩
    exact ⟨w, List.mk_mem_enum_iff_get?.mp hw, hc⟩
  · rintro ⟨w, hw, hc⟩
    exact ⟨w, List.mk_mem_enum_iff_get?.mpr hw, hc⟩

/-- C10: after a grid rebuild, every obstacle index stored in any grid cell is
a valid index into the obstacle list, so every cell lookup during a collision
query dereferences a defined obstacle. -/
theorem grid_indices_always_valid (walls : List Wall) (key : ℤ × ℤ) (j : ℕ)
    (hj : j ∈ updateSpatialGrid walls key) :
    j < walls.length ∧ ∃ w, walls.get? j = some w := by
  rw [updateSpatialGrid_mem] at hj
  obtain ⟨w, hw, -⟩ := hj
  obtain ⟨hlt, -⟩ := List.get?_eq_some.mp hw
  exact ⟨hlt, w, hw⟩

theorem wallW_bbox : wallBBox wallW = (0, 0, 10, 10) := by
  simp only [wallBBox, wallW]
  norm_num

theorem floor_div100_zero : ⌊(10 : ℚ) / 100⌋ = 0 := by
  rw [Int.floor_eq_iff] <;> norm_num

theorem wallW_cells : wallCells wallW = [(0, 0)] := by
  rw [wallCells, wallW_bbox]
  simp only [cellCoords, gridSize]
  norm_num [floor_div100_zero]
  decide

/-- Witness for `grid_indices_always_valid` at a concrete grid. -/
theorem grid_indices_always_valid_witness :
    0 ∈ updateSpatialGrid [wallW] (0, 0) ∧ 0 < [wallW].length := by
  have hmem : 0 ∈ updateSpatialGrid [wallW] (0, 0) :=
    (updateSpatialGrid_mem [wallW] (0, 0) 0).mpr ⟨wallW, rfl, by rw [wallW_cells]; simp⟩
  exact ⟨hmem, (grid_indices_always_valid [wallW] (0, 0) 0 hmem).1⟩

theorem cellsFold_count (cells : List (ℤ × ℤ)) (g : (ℤ × ℤ) → List ℕ) (i : ℕ)
    (key : ℤ × ℤ) (j : ℕ) :
    ((cells.foldl (fun g' cell => fun k => if k = cell then g' k ++ [i] else g' k) g) key).count j =
      (g key).count j + (if j = i then cells.count key else 0) := by
  induction cells generalizing g with
  | nil => simp
  | cons c cs ih =>
      simp only [List.foldl_cons]
      rw [ih]
      by_cases hk : key = c
      · subst hk
        by_cases hj : j = i <;>
          simp [hj, List.count_append, List.count_cons] <;> omega
      · have hkc : ¬ c = key := fun h => hk h.symm
        by_cases hj : j = i <;>
          simp [hj, if_neg hk, List.count_cons, hk, hkc]

theorem buildGrid_count (l : List (ℕ × Wall)) (g : (ℤ × ℤ) → List ℕ) (key : ℤ × ℤ) (j : ℕ) :
    (buildGrid l g key).count j =
      (g key).count j +
        ((l.filter (fun p => p.1 = j)).map (fun p => (wallCells p.2).count key)).sum := by
  induction l generalizing g with
  | nil => simp [buildGrid]
  | cons p rest ih =>
      obtain ⟨i, w⟩ := p
      simp only [buildGrid]
      rw [ih, cellsFold_count]
      by_cases hj : j = i
      · subst hj
        simp only [List.filter_cons, decide_eq_true_eq, eq_self_iff_true, if_true,
          List.map_cons, List.sum_cons]
        omega
      · have hine : ¬ (i = j) := fun h => hj h.symm
        simp only [List.filter_cons, decide_eq_true_eq, hine, if_false, if_neg hj, add_zero]

theorem enumFrom_filter_key (walls : List Wall) (n j : ℕ) :
    ((List.enumFrom n walls).filter (fun p => p.1 = j)).length ≤ 1 := by
  induction walls generalizing n with
  | nil => simp
  | cons w ws ih =>
      rw [List.enumFrom_cons, List.filter_cons]
      by_cases hn : n = j
      · subst hn
        have hrest : (List.enumFrom (n + 1) ws).filter (fun p => p.1 = n) = [] := by
          rw [List.filter_eq_nil]
          intro p hp
          have := (List.mem_enumFrom hp).1
          simp only [decide_eq_true_eq]
          omega
        simp [hrest]
      · simp only [decide_eq_true_eq, hn, if_false]
        exact ih (n + 1)

theorem intRange_nodup (a b : ℤ) : (intRange a b).Nodup := by
  apply List.Nodup.map
  · intro m n h
    simp only at h
    omega
  · exact List.nodup_range _

theorem cellCoords_nodup (a b c d : ℚ) : (cellCoords a b c d).Nodup := by
  rw [cellCoords]
  apply List.nodup_bind.mpr
  constructor
  · intro gx _
    apply List.Nodup.map _ (intRange_nodup _ _)
    intro m n h
    simpa using h
  · apply List.Pairwise.imp ?_ (intRange_nodup _ _)
    intro gx1 gx2 hne p hp1 hp2
    simp only [List.mem_map] at hp1 hp2
    obtain ⟨gy1, -, rfl⟩ := hp1
    obtain ⟨gy2, -, heq⟩ := hp2
    exact hne (congrArg Prod.fst heq).symm

theorem count_le_one_of_nodup {α : Type} [BEq α] [LawfulBEq α] (l : List α) (h : l.Nodup)
    (a : α) : l.count a ≤ 1 := by
  induction l with
  | nil => simp
  | cons x xs ih =>
      rcases List.nodup_cons.mp h with ⟨hx, hxs⟩
      by_cases hax : a = x
      · subst hax
        have hz : xs.count a = 0 := List.count_eq_zero.mpr hx
        simp [List.count_cons, hz]
      · simp [List.count_cons, hax, ih hxs]

theorem wallCells_count_le_one (wall : Wall) (key : ℤ × ℤ) :
    (wallCells wall).count key ≤ 1 := by
  have hnd : (wallCells wall).Nodup := by
    rw [wallCells]; exact cellCoords_nodup _ _ _ _
  exact count_le_one_of_nodup _ hnd key

/-- C7 (amended): each grid cell's list contains every obstacle index at most
once; the concatenation `checkCollision` scans across several cells may
repeat an index (see `query_candidates_not_dedup`), which only re-runs a
narrow-phase test and cannot change the boolean result. -/
theorem grid_cell_lists_nodup (walls : List Wall) (key : ℤ × ℤ) :
    (updateSpatialGrid walls key).Nodup := by
  rw [List.nodup_iff_count_le_one]
  intro j
  unfold updateSpatialGrid
  rw [buildGrid_count]
  simp only [List.count_nil, Nat.zero_add]
  have hlen : ((walls.enum.filter (fun p => p.1 = j))).length ≤ 1 :=
    enumFrom_filter_key walls 0 j
  rcases hfil : walls.enum.filter (fun p => p.1 = j) with _ | ⟨p, rest⟩
  · rw [hfil]
    simp
  · rw [hfil] at hlen
    rw [hfil]
    have hrest : rest = [] := by
      simp only [List.length_cons] at hlen
      exact List.length_eq_zero.mp (by omega)
    subst hrest
    simpa using wallCells_count_le_one p.2 key

theorem wallC7_cells : wallCells wallC7 = [(0, 0), (1, 0)] := by
  have hbb : wallBBox wallC7 = (50, 50, 150, 60) := by
    simp only [wallBBox, wallC7]
    norm_num
  rw [wallCells, hbb]
  simp only [cellCoords, gridSize]
  have f50 : ⌊(50 : ℚ) / 100⌋ = 0 := by rw [Int.floor_eq_iff] <;> norm_num
  have f150 : ⌊(150 : ℚ) / 100⌋ = 1 := by rw [Int.floor_eq_iff] <;> norm_num
  have f60 : ⌊(60 : ℚ) / 100⌋ = 0 := by rw [Int.floor_eq_iff] <;> norm_num
  rw [f50, f150, f60]
  decide

theorem queryCells_c7 :
    queryCells 0 0 200 100 = [(0, 0), (0, 1), (1, 0), (1, 1), (2, 0), (2, 1)] := by
  simp only [queryCells, cellCoords, gridSize]
  have f0 : ⌊(0 : ℚ) / 100⌋ = 0 := by norm_num
  have f200 : ⌊(0 + 200 : ℚ) / 100⌋ = 2 := by rw [Int.floor_eq_iff] <;> norm_num
  have f100 : ⌊(0 + 100 : ℚ) / 100⌋ = 1 := by rw [Int.floor_eq_iff] <;> norm_num
  rw [f0, f200, f100]
  decide

theorem updateSpatialGrid_c7_count (key : ℤ × ℤ) :
    (updateSpatialGrid [wallC7] key).count 0 = (wallCells wallC7).count key := by
  unfold updateSpatialGrid
  have henum : ([wallC7] : List Wall).enum = [(0, wallC7)] := rfl
  rw [henum, buildGrid_count]
  simp

/-- C7 (counterexample): the obstacle at index `0` spans grid cells `(0, 0)`
and `(1, 0)`, both inside the scanned range of the query rectangle
`(0, 0, 200, 100)`, so the candidate collection scanned by `checkCollision`
contains index `0` twice — the lookup is not deduplicated across cells. -/
theorem query_candidates_not_dedup :
    ¬ ((queryCandidates [wallC7] 0 0 200 100).count 0 ≤ 1) := by
  have hq : (queryCandidates [wallC7] 0 0 200 100).count 0 = 2 := by
    rw [queryCandidates, queryCells_c7]
    simp only [List.flatMap_cons, List.flatMap_nil, List.count_append, List.append_nil,
      List.count_nil, updateSpatialGrid_c7_count, wallC7_cells]
    decide
  simp [hq]

/-- C1 (amended): the source computes the vertex bounding box only for
`polygon`-kind obstacles; `rectangle`, `circle` and also `triangle` kinds are
indexed by the position-and-size box.  With the box the code actually computes
(`wallBBox`), the broad phase has no false negatives: every obstacle whose box
meets the query rectangle (closed intervals) is produced by the candidate
lookup of `checkCollision`, hence narrow-phase tested. -/
theorem grid_no_false_negatives (walls : List Wall) (i : ℕ) (wall : Wall)
    (x y width height : ℚ)
    (hget : walls.get? i = some wall)
    (hww : 0 ≤ wall.width) (hwh : 0 ≤ wall.height)
    (hw : 0 ≤ width) (hh : 0 ≤ height)
    (hx1 : (wallBBox wall).1 ≤ x + width) (hx2 : x ≤ (wallBBox wall).2.2.1)
    (hy1 : (wallBBox wall).2.1 ≤ y + height) (hy2 : y ≤ (wallBBox wall).2.2.2) :
    i ∈ queryCandidates walls x y width height := by
  obtain ⟨hwf1, hwf2⟩ := wallBBox_wf wall hww hwh
  have hg : (0 : ℚ) < gridSize := by norm_num [gridSize]
  have mono : ∀ a b : ℚ, a ≤ b → ⌊a / gridSize⌋ ≤ ⌊b / gridSize⌋ := fun a b hab =>
    Int.floor_mono ((div_le_div_iff_of_pos_right hg).mpr hab)
  rw [queryCandidates]
  refine List.mem_flatMap.mpr
    ⟨(max ⌊(wallBBox wall).1 / gridSize⌋ ⌊x / gridSize⌋,
      max ⌊(wallBBox wall).2.1 / gridSize⌋ ⌊y / gridSize⌋), ?_, ?_⟩
  · rw [queryCells, cellCoords_mem]
    refine ⟨le_max_right _ _, ?_, le_max_right _ _, ?_⟩
    · exact max_le (mono _ _ hx1) (mono _ _ (by linarith))
    · exact max_le (mono _ _ hy1) (mono _ _ (by linarith))
  · rw [updateSpatialGrid_mem]
    refine ⟨wall, hget, ?_⟩
    rw [wallCells, cellCoords_mem]
    refine ⟨le_max_left _ _, ?_, le_max_left _ _, ?_⟩
    · exact max_le (mono _ _ hwf1) (mono _ _ hx2)
    · exact max_le (mono _ _ hwf2) (mono _ _ hy2)

/-- Witness for `grid_no_false_negatives` at a concrete obstacle and query. -/
theorem grid_no_false_negatives_witness :
    ((wallBBox wallW).1 ≤ 5 + 10 ∧ (5 : ℚ) ≤ (wallBBox wallW).2.2.1 ∧
     (wallBBox wallW).2.1 ≤ 5 + 10 ∧ (5 : ℚ) ≤ (wallBBox wallW).2.2.2) ∧
    0 ∈ queryCandidates [wallW] 5 5 10 10 := by
  refine ⟨⟨?_, ?_, ?_, ?_⟩, ?_⟩ <;>
    try (rw [wallW_bbox]; norm_num)
  exact grid_no_false_negatives [wallW] 0 wallW 5 5 10 10 rfl
    (by norm_num [wallW]) (by norm_num [wallW]) (by norm_num) (by norm_num)
    (by rw [wallW_bbox]; norm_num) (by rw [wallW_bbox]; norm_num)
    (by rw [wallW_bbox]; norm_num) (by rw [wallW_bbox]; norm_num)

theorem triWall_specAABB : specWallAABB triWall = (0, 0, 300, 300) := by
  simp only [specWallAABB, triWall, List.length_cons, List.length_nil, List.map_cons,
    List.map_nil, listMin, listMax, List.foldl_cons, List.foldl_nil]
  norm_num [min_def, max_def]

theorem triWall_cells : wallCells triWall = [(0, 0)] := by
  have hbb : wallBBox triWall = (0, 0, 0, 0) := by
    simp only [wallBBox, triWall]
    norm_num
  rw [wallCells, hbb]
  simp only [cellCoords, gridSize]
  have f0 : ⌊(0 : ℚ) / 100⌋ = 0 := by norm_num
  rw [f0]
  decide

/-- C1 (counterexample): the spec's own AABB of the triangle obstacle
`triWall` (the vertex box `(0, 0, 300, 300)`) overlaps the query rectangle
`(250, 0, 10, 10)`, yet the candidate lookup of `checkCollision` does not
yield the obstacle's index: the source grid-indexes triangles by their
position-and-size box, here the single point `(0, 0)`. -/
theorem grid_misses_triangle_vertex_box :
    ((specWallAABB triWall).1 ≤ 250 + 10 ∧ (250 : ℚ) ≤ (specWallAABB triWall).2.2.1 ∧
     (specWallAABB triWall).2.1 ≤ 0 + 10 ∧ (0 : ℚ) ≤ (specWallAABB triWall).2.2.2) ∧
    0 ∉ queryCandidates [triWall] 250 0 10 10 := by
  constructor
  · rw [triWall_specAABB]
    norm_num
  · intro hmem
    rw [queryCandidates, List.mem_flatMap] at hmem
    obtain ⟨cell, hcell, hgridmem⟩ := hmem
    rw [updateSpatialGrid_mem] at hgridmem
    obtain ⟨w, hwm, hcells⟩ := hgridmem
    have hwq : triWall = w := by simpa using hwm
    subst hwq
    rw [triWall_cells] at hcells
    have hc : cell = (0, 0) := by simpa using hcells
    subst hc
    rw [queryCells, cellCoords_mem] at hcell
    obtain ⟨h1, -, -, -⟩ := hcell
    have f250 : ⌊(250 : ℚ) / gridSize⌋ = 2 := by
      simp only [gridSize]
      rw [Int.floor_eq_iff] <;> norm_num
    rw [f250] at h1
    simp at h1

theorem checkCollision_eq_true_iff (m : MapManagerState) (x y width height : ℚ) :
    checkCollision m x y width height = true ↔
      mapOutOfBounds m x y width height ∨
        ∃ i ∈ queryCandidates m.collisionLayer x y width height,
          narrowPhase m.collisionLayer x y width height i = true := by
  unfold checkCollision mapOutOfBounds
  dsimp only
  split_ifs with h
  · simp only [true_iff]
    exact Or.inl h
  · simp only [List.any_eq_true]
    constructor
    · exact fun hc => Or.inr hc
    · rintro (hb | hc)
      · exact absurd hb h
      · exact hc

theorem move_x_char (m : MapManagerState) (p : PlayerState) (deltaX deltaY : ℚ) :
    (Player.move m p deltaX deltaY).x =
      (if deltaX ≠ 0 ∧ checkCollision m (p.x + deltaX) p.y p.width p.height = false
       then p.x + deltaX else p.x) := by
  unfold Player.move
  by_cases hdx : deltaX = 0
  · simp only [hdx, ne_eq, not_true_eq_false, false_and, if_false]
    by_cases hdy : deltaY = 0 <;>
      rcases hc : checkCollision m p.x (p.y + deltaY) p.width p.height with _ | _ <;>
      simp [hdy, hc]
  · rcases hcx : checkCollision m (p.x + deltaX) p.y p.width p.height with _ | _
    · simp only [hdx, ne_eq, not_false_eq_true, true_and, hcx, if_pos rfl]
      by_cases hdy : deltaY = 0 <;>
        rcases hc : checkCollision m (p.x + deltaX) (p.y + deltaY) p.width p.height with _ | _ <;>
        simp [hdx, hdy, hcx, hc]
    · simp only [hdx, ne_eq, not_false_eq_true, true_and, hcx]
      by_cases hdy : deltaY = 0 <;>
        rcases hc : checkCollision m p.x (p.y + deltaY) p.width p.height with _ | _ <;>
        simp [hdx, hdy, hcx, hc]

theorem move_y_char (m : MapManagerState) (p : PlayerState) (deltaX deltaY : ℚ) :
    (Player.move m p deltaX deltaY).y =
      (if deltaY ≠ 0 ∧
          checkCollision m (Player.move m p deltaX deltaY).x (p.y + deltaY)
            p.width p.height = false
       then p.y + deltaY else p.y) := by
  rw [move_x_char]
  unfold Player.move
  by_cases hdx : deltaX = 0
  · by_cases hdy : deltaY = 0
    · simp [hdx, hdy]
    · rcases hcy : checkCollision m p.x (p.y + deltaY) p.width p.height with _ | _ <;>
        simp [hdx, hdy, hcy]
  · rcases hcx : checkCollision m (p.x + deltaX) p.y p.width p.height with _ | _
    · by_cases hdy : deltaY = 0
      · simp [hdx, hdy, hcx]
      · rcases hcy : checkCollision m (p.x + deltaX) (p.y + deltaY) p.width p.height with _ | _ <;>
          simp [hdx, hdy, hcx, hcy]
    · by_cases hdy : deltaY = 0
      · simp [hdx, hdy, hcx]
      · rcases hcy : checkCollision m p.x (p.y + deltaY) p.width p.height with _ | _ <;>
          simp [hdx, hdy, hcx, hcy]

/-- C2: movement is resolved per axis, all-or-nothing, X before Y.  The
horizontal coordinate advances exactly when the delta is nonzero and the
tentative rectangle neither leaves the map bounds nor collides with any
candidate obstacle from the grid scan; the vertical test then runs at the
already-updated horizontal position; a rejected axis keeps its old coordinate
exactly. -/
theorem move_resolves_axes_independently (m : MapManagerState) (p : PlayerState)
    (deltaX deltaY : ℚ) :
    ((Player.move m p deltaX deltaY).x =
      (if deltaX ≠ 0 ∧ ¬(mapOutOfBounds m (p.x + deltaX) p.y p.width p.height ∨
          ∃ i ∈ queryCandidates m.collisionLayer (p.x + deltaX) p.y p.width p.height,
            narrowPhase m.collisionLayer (p.x + deltaX) p.y p.width p.height i = true)
       then p.x + deltaX else p.x)) ∧
    ((Player.move m p deltaX deltaY).y =
      (if deltaY ≠ 0 ∧
          ¬(mapOutOfBounds m (Player.move m p deltaX deltaY).x (p.y + deltaY)
              p.width p.height ∨
            ∃ i ∈ queryCandidates m.collisionLayer (Player.move m p deltaX deltaY).x
                (p.y + deltaY) p.width p.height,
              narrowPhase m.collisionLayer (Player.move m p deltaX deltaY).x
                (p.y + deltaY) p.width p.height i = true)
       then p.y + deltaY else p.y)) ∧
    ((Player.move m p deltaX deltaY).x = p.x ∨
      (Player.move m p deltaX deltaY).x = p.x + deltaX) ∧
    ((Player.move m p deltaX deltaY).y = p.y ∨
      (Player.move m p deltaX deltaY).y = p.y + deltaY) := by
  have hiff : ∀ a b : ℚ, (checkCollision m a b p.width p.height = false) ↔
      ¬(mapOutOfBounds m a b p.width p.height ∨
        ∃ i ∈ queryCandidates m.collisionLayer a b p.width p.height,
          narrowPhase m.collisionLayer a b p.width p.height i = true) := by
    intro a b
    rw [← checkCollision_eq_true_iff]
    simp
  refine ⟨?_, ?_, ?_, ?_⟩
  · rw [move_x_char]
    exact if_congr (and_congr_right' (hiff _ _)) rfl rfl
  · rw [move_y_char]
    exact if_congr (and_congr_right' (hiff _ _)) rfl rfl
  · rw [move_x_char]
    split_ifs
    · exact Or.inr rfl
    · exact Or.inl rfl
  · rw [move_y_char]
    split_ifs
    · exact Or.inr rfl
    · exact Or.inl rfl

/-- C4: shape classification is total and deterministic — a polygon array of
length at least 4 yields `polygon`, exactly 3 yields `triangle`; otherwise a
truthy radius or a square positive size yields `circle`; everything else
(rotation included) yields `rectangle`, and every input is classified. -/
theorem detectShapeType_total (obj : RawObject) : detectShapeType obj = classifySpec obj := by
  by_cases hp : obj.polygon.isSome
  · by_cases h3 : 3 ≤ polygonLen obj.polygon
    · by_cases he : polygonLen obj.polygon = 3
      · simp [detectShapeType, classifySpec, hp, h3, he]
      · have h4 : 4 ≤ polygonLen obj.polygon := by omega
        simp [detectShapeType, classifySpec, hp, h3, he, h4]
    · have hlt : ¬ 4 ≤ polygonLen obj.polygon := by omega
      have hne : ¬ polygonLen obj.polygon = 3 := by omega
      simp [detectShapeType, classifySpec, hp, h3, hlt, hne]
  · simp [detectShapeType, classifySpec, hp]

/-- C6: a non-rotated rectangle obstacle is tested with the strict AABB
overlap `x1 < x2 + w2 && x1 + w1 > x2 && y1 < y2 + h2 && y1 + h1 > y2`, so
two rectangles whose edges merely touch are not colliding. -/
theorem rect_collision_strict (playerX playerY playerWidth playerHeight : ℚ) (wall : Wall)
    (hrot : wall.rotation = 0) :
    (checkRotatedRectangleCollision playerX playerY playerWidth playerHeight wall =
      (decide (playerX < wall.x + wall.width) && decide (playerX + playerWidth > wall.x) &&
       decide (playerY < wall.y + wall.height) && decide (playerY + playerHeight > wall.y))) ∧
    (playerX + playerWidth = wall.x →
      checkRotatedRectangleCollision playerX playerY playerWidth playerHeight wall = false) := by
  constructor
  · unfold checkRotatedRectangleCollision
    rw [if_pos hrot]
    rfl
  · intro htouch
    unfold checkRotatedRectangleCollision
    rw [if_pos hrot]
    unfold rectCollision
    rw [htouch]
    simp

/-- Witness for `rect_collision_strict`: a player of width 5 at the origin
touches the obstacle's left edge and is reported as not colliding. -/
theorem rect_collision_strict_witness :
    wallR.rotation = 0 ∧ (0 : ℚ) + 5 = wallR.x ∧
    checkRotatedRectangleCollision 0 0 5 5 wallR = false := by
  refine ⟨rfl, by norm_num [wallR], ?_⟩
  exact (rect_collision_strict 0 0 5 5 wallR rfl).2 (by norm_num [wallR])

/-- C8: zone membership is first-match in declaration order — the scan visits
houses in input order and returns the first one whose membership predicate
holds, so when the body is inside several overlapping zones the
earliest-declared one is reported. -/
theorem zone_first_match (houses : List House) (playerX playerY playerWidth playerHeight : ℚ)
    (i : ℕ) (hi : i < houses.length)
    (hin : houseInside playerX playerY playerWidth playerHeight (houses.get ⟨i, hi⟩) = true)
    (hbefore : ∀ j (hj : j < houses.length), j < i →
      houseInside playerX playerY playerWidth playerHeight (houses.get ⟨j, hj⟩) = false) :
    checkProximityToHouses houses playerX playerY playerWidth playerHeight =
      some (houses.get ⟨i, hi⟩) := by
  induction houses generalizing i with
  | nil => exact absurd hi (by simp)
  | cons h t ih =>
      cases i with
      | zero =>
          exact List.find?_cons_of_pos _ hin
      | succ n =>
          have h0 : houseInside playerX playerY playerWidth playerHeight h = false :=
            hbefore 0 (by simp) (Nat.succ_pos n)
          have hstep : checkProximityToHouses (h :: t) playerX playerY playerWidth playerHeight =
              checkProximityToHouses t playerX playerY playerWidth playerHeight := by
            unfold checkProximityToHouses
            exact List.find?_cons_of_neg _ (by simp [h0])
          rw [hstep]
          exact ih n (Nat.lt_of_succ_lt_succ hi) hin
            (fun j hj hlt => hbefore (j + 1) (by omega) (by omega))

/-- Witness for `zone_first_match`: a body inside both overlapping zones is
reported as being in the earlier-declared one, never the later one. -/
theorem zone_first_match_witness :
    houseInside 60 60 10 10 houseA = true ∧ houseInside 60 60 10 10 houseB = true ∧
    houseA ≠ houseB ∧
    checkProximityToHouses [houseA, houseB] 60 60 10 10 = some houseA := by
  have hA : houseInside 60 60 10 10 houseA = true := by
    norm_num [houseInside, houseA, checkHouseRectangleCollision]
  have hB : houseInside 60 60 10 10 houseB = true := by
    norm_num [houseInside, houseB, checkHouseRectangleCollision]
  refine ⟨hA, hB, ?_, ?_⟩
  · intro hAB
    have := congrArg House.x hAB
    norm_num [houseA, houseB] at this
  · exact zone_first_match [houseA, houseB] 60 60 10 10 0 (by norm_num) hA
      (fun j hj hlt => absurd hlt (Nat.not_lt_zero j))

/-- C9: polygon-zone membership is exactly "some player corner inside the
polygon (even-odd ray casting) or some polygon vertex inside the player
rectangle (inclusive bounds)" — unlike the obstacle polygon test
(`checkPolygonCollision`), no edge-intersection fallback is applied, so a
body overlapping the zone without either condition is reported outside. -/
theorem zone_polygon_no_edge_fallback (playerX playerY playerWidth playerHeight : ℚ)
    (house : House) (poly : List Pt)
    (hpoly : house.polygon = some poly) (hlen : 3 ≤ poly.length) :
    checkHousePolygonCollision playerX playerY playerWidth playerHeight house = true ↔
      ((∃ corner ∈ playerCorners playerX playerY playerWidth playerHeight,
          pointInPolygon corner
            (poly.map (fun point => Pt.mk (house.x + point.x) (house.y + point.y))) = true) ∨
       (∃ point ∈ poly.map (fun point => Pt.mk (house.x + point.x) (house.y + point.y)),
          playerX ≤ point.x ∧ point.x ≤ playerX + playerWidth ∧
          playerY ≤ point.y ∧ point.y ≤ playerY + playerHeight)) := by
  unfold checkHousePolygonCollision
  rw [hpoly]
  dsimp only
  rw [if_neg (by omega)]
  simp only [Bool.or_eq_true, List.any_eq_true, Bool.and_eq_true, decide_eq_true_eq]
  constructor
  · rintro (h | ⟨pt, hm, hb⟩)
    · exact Or.inl h
    · exact Or.inr ⟨pt, hm, by tauto⟩
  · rintro (h | ⟨pt, hm, hb⟩)
    · exact Or.inl h
    · exact Or.inr ⟨pt, hm, by tauto⟩

/-- Witness for `zone_polygon_no_edge_fallback`, at a body that crosses the
strip zone: no body corner is inside the polygon and no polygon vertex is
inside the body, so the zone test reports outside even though the body
overlaps the zone (the obstacle test `checkPolygonCollision` reports a
collision there via its edge-intersection fallback). -/
theorem zone_polygon_no_edge_fallback_witness :
    houseStrip.polygon = some [⟨4, 0⟩, ⟨6, 0⟩, ⟨6, 100⟩, ⟨4, 100⟩] ∧
    (checkHousePolygonCollision 0 40 10 10 houseStrip = true ↔
      ((∃ corner ∈ playerCorners 0 40 10 10,
          pointInPolygon corner
            (([⟨4, 0⟩, ⟨6, 0⟩, ⟨6, 100⟩, ⟨4, 100⟩] : List Pt).map
              (fun point => Pt.mk (houseStrip.x + point.x) (houseStrip.y + point.y))) = true) ∨
       (∃ point ∈ ([⟨4, 0⟩, ⟨6, 0⟩, ⟨6, 100⟩, ⟨4, 100⟩] : List Pt).map
            (fun point => Pt.mk (houseStrip.x + point.x) (houseStrip.y + point.y)),
          (0 : ℚ) ≤ point.x ∧ point.x ≤ 0 + 10 ∧
          (40 : ℚ) ≤ point.y ∧ point.y ≤ 40 + 10))) := by
  exact ⟨rfl, zone_polygon_no_edge_fallback 0 40 10 10 houseStrip
    [⟨4, 0⟩, ⟨6, 0⟩, ⟨6, 100⟩, ⟨4, 100⟩] rfl (by norm_num)⟩

theorem JF.jmin_nan_left (a : JF) : JF.jmin JF.nan a = JF.nan := by cases a <;> rfl

theorem JF.jmax_nan_left (a : JF) : JF.jmax JF.nan a = JF.nan := by cases a <;> rfl

theorem projectShape_fold_nan (shape : List Pt) (ax : JF × JF) :
    shape.foldl (fun mm p => (JF.jmin mm.1 (dotJF p ax), JF.jmax mm.2 (dotJF p ax)))
      (JF.nan, JF.nan) = (JF.nan, JF.nan) := by
  induction shape with
  | nil => rfl
  | cons p ps ih =>
      simp only [List.foldl_cons, JF.jmin_nan_left, JF.jmax_nan_left]
      exact ih

theorem projectShape_nan_axis (shape : List Pt) (h : shape ≠ []) :
    projectShape shape (JF.nan, JF.nan) = (JF.nan, JF.nan) := by
  cases shape with
  | nil => exact absurd rfl h
  | cons p ps =>
      unfold projectShape
      have hdot : dotJF p (JF.nan, JF.nan) = JF.nan := rfl
      simp only [List.foldl_cons, hdot, JF.jmin_nan_right, JF.jmax_nan_right]
      exact projectShape_fold_nan ps _

theorem satAxisCheck_degenerate (cur other : List Pt) (i : ℕ) (hi : i < cur.length)
    (heq : cur.getD i ⟨0, 0⟩ = cur.getD ((i + 1) % cur.length) ⟨0, 0⟩) :
    satAxisCheck cur other i = false := by
  have hne : cur ≠ [] := by
    intro hcur
    rw [hcur] at hi
    simp at hi
  unfold satAxisCheck
  rw [← heq]
  simp only [sub_self, JF.mul_num, mul_zero, JF.add_num, add_zero, JF.sqrt,
    lt_self_iff_false, if_false, sqrtQ_zero, JF.div, eq_self_iff_true, if_true,
    projectShape_nan_axis cur hne, overlap, JF.le_nan_right, Bool.false_and]

theorem pointInTriangle_degenerate (point a b c : Pt)
    (hd : (b.y - c.y) * (a.x - c.x) + (c.x - b.x) * (a.y - c.y) = 0) :
    pointInTriangle point a b c = false := by
  unfold pointInTriangle
  rw [hd]
  rcases lt_trichotomy ((b.y - c.y) * (point.x - c.x) + (c.x - b.x) * (point.y - c.y)) 0
    with hA | hA | hA
  · simp [JF.div, hA.ne, not_lt.mpr hA.le, JF.le]
  · simp [JF.div, hA, JF.le]
  · rcases lt_trichotomy ((c.y - a.y) * (point.x - c.x) + (a.x - c.x) * (point.y - c.y)) 0
      with hB | hB | hB
    · simp [JF.div, hA.ne', hA, hB.ne, not_lt.mpr hB.le, JF.le]
    · simp [JF.div, hA.ne', hA, hB, JF.le]
    · simp [JF.div, hA.ne', hA, hB.ne', hB, JF.le, JF.sub, JF.add, JF.neg]

theorem checkPolygonCollision_degenerate (playerX playerY playerWidth playerHeight : ℚ)
    (wall : Wall) (h : polygonLen wall.polygon < 3) :
    checkPolygonCollision playerX playerY playerWidth playerHeight wall = false := by
  unfold checkPolygonCollision
  rcases hp : wall.polygon with _ | poly
  · rfl
  · rw [hp] at h
    simp only [polygonLen] at h
    dsimp only
    rw [if_pos h]

theorem satCollision_degenerate (s1 s2 : List Pt) (i : ℕ)
    (h : (i < s1.length ∧ s1.getD i ⟨0, 0⟩ = s1.getD ((i + 1) % s1.length) ⟨0, 0⟩) ∨
         (i < s2.length ∧ s2.getD i ⟨0, 0⟩ = s2.getD ((i + 1) % s2.length) ⟨0, 0⟩)) :
    satCollision s1 s2 = false := by
  unfold satCollision
  rcases h with ⟨hi, heq⟩ | ⟨hi, heq⟩
  · have h1 : (List.range s1.length).all (satAxisCheck s1 s2) = false :=
      List.all_eq_false.mpr ⟨i, List.mem_range.mpr hi,
        by simp [satAxisCheck_degenerate s1 s2 i hi heq]⟩
    rw [h1, Bool.false_and]
  · have h2 : (List.range s2.length).all (satAxisCheck s2 s1) = false :=
      List.all_eq_false.mpr ⟨i, List.mem_range.mpr hi,
        by simp [satAxisCheck_degenerate s2 s1 i hi heq]⟩
    rw [h2, Bool.and_false]

/-- C3: degenerate geometry reports no collision rather than raising: a
polygon with fewer than 3 vertices fails the explicit guard; a zero-area
triangle divides by a zero barycentric denominator, whose `NaN`/`Infinity`
weights fail the sign tests; a pair of coincident adjacent corners gives a
zero-length SAT axis whose unguarded normalization produces `NaN`
projections, failing the overlap test.  All predicates are total. -/
theorem degenerate_geometry_no_collision
    (playerX playerY playerWidth playerHeight : ℚ) (wall : Wall)
    (point a b c : Pt) (s1 s2 : List Pt) (i : ℕ)
    (hpoly : polygonLen wall.polygon < 3)
    (htri : (b.y - c.y) * (a.x - c.x) + (c.x - b.x) * (a.y - c.y) = 0)
    (hsat : (i < s1.length ∧ s1.getD i ⟨0, 0⟩ = s1.getD ((i + 1) % s1.length) ⟨0, 0⟩) ∨
            (i < s2.length ∧ s2.getD i ⟨0, 0⟩ = s2.getD ((i + 1) % s2.length) ⟨0, 0⟩)) :
    checkPolygonCollision playerX playerY playerWidth playerHeight wall = false ∧
    pointInTriangle point a b c = false ∧
    satCollision s1 s2 = false :=
  ⟨checkPolygonCollision_degenerate playerX playerY playerWidth playerHeight wall hpoly,
   pointInTriangle_degenerate point a b c htri,
   satCollision_degenerate s1 s2 i hsat⟩

/-- Witness for `degenerate_geometry_no_collision`: a 2-vertex polygon, a
zero-area (collinear) triangle containing the tested point's projection, and
a SAT shape with two coincident adjacent corners all report no collision. -/
theorem degenerate_geometry_no_collision_witness :
    checkPolygonCollision 0 0 10 10 wallPoly2 = false ∧
    pointInTriangle ⟨1, 0⟩ ⟨0, 0⟩ ⟨2, 0⟩ ⟨4, 0⟩ = false ∧
    satCollision [⟨0, 0⟩, ⟨0, 0⟩, ⟨0, 5⟩, ⟨0, 5⟩] [⟨1, 1⟩, ⟨2, 1⟩, ⟨2, 2⟩, ⟨1, 2⟩] = false :=
  degenerate_geometry_no_collision 0 0 10 10 wallPoly2 ⟨1, 0⟩ ⟨0, 0⟩ ⟨2, 0⟩ ⟨4, 0⟩
    [⟨0, 0⟩, ⟨0, 0⟩, ⟨0, 5⟩, ⟨0, 5⟩] [⟨1, 1⟩, ⟨2, 1⟩, ⟨2, 2⟩, ⟨1, 2⟩] 0
    (by norm_num [polygonLen, wallPoly2])
    (by norm_num)
    (Or.inl ⟨by norm_num, rfl⟩)

theorem dotJF_num (p : Pt) (u v : ℚ) :
    dotJF p (JF.num u, JF.num v) = JF.num (qdot p u v) := rfl

theorem projectShape_num_aux (ps : List Pt) (u v : ℚ) :
    ∀ a b : ℚ,
      ps.foldl (fun mm p => (JF.jmin mm.1 (dotJF p (JF.num u, JF.num v)),
          JF.jmax mm.2 (dotJF p (JF.num u, JF.num v)))) (JF.num a, JF.num b) =
      (JF.num ((ps.foldl
          (fun mm pq => (min mm.1 (qdot pq u v), max mm.2 (qdot pq u v))) (a, b)).1),
       JF.num ((ps.foldl
          (fun mm pq => (min mm.1 (qdot pq u v), max mm.2 (qdot pq u v))) (a, b)).2)) := by
  induction ps with
  | nil => intro a b; rfl
  | cons p ps ih =>
      intro a b
      simp only [List.foldl_cons, dotJF_num, JF.jmin_num, JF.jmax_num]
      exact ih (min a (qdot p u v)) (max b (qdot p u v))

theorem projectShape_num (shape : List Pt) (u v : ℚ) (hne : shape ≠ []) :
    projectShape shape (JF.num u, JF.num v) =
      (JF.num (qProj shape u v).1, JF.num (qProj shape u v).2) := by
  cases shape with
  | nil => exact absurd rfl hne
  | cons p ps =>
      unfold projectShape qProj
      simp only [List.foldl_cons, dotJF_num, JF.jmin_pinf_num, JF.jmax_ninf_num]
      exact projectShape_num_aux ps u v _ _

theorem min_div_pos (a b L : ℚ) (hL : 0 < L) : min (a / L) (b / L) = min a b / L := by
  rcases le_total a b with h | h
  · rw [min_eq_left ((div_le_div_iff_of_pos_right hL).mpr h), min_eq_left h]
  · rw [min_eq_right ((div_le_div_iff_of_pos_right hL).mpr h), min_eq_right h]

theorem max_div_pos (a b L : ℚ) (hL : 0 < L) : max (a / L) (b / L) = max a b / L := by
  rcases le_total a b with h | h
  · rw [max_eq_right ((div_le_div_iff_of_pos_right hL).mpr h), max_eq_right h]
  · rw [max_eq_left ((div_le_div_iff_of_pos_right hL).mpr h), max_eq_left h]

theorem qdot_div (p : Pt) (u v L : ℚ) : qdot p (u / L) (v / L) = qdot p u v / L := by
  unfold qdot
  ring

theorem qProj_scale_aux (ps : List Pt) (u v L : ℚ) (hL : 0 < L) :
    ∀ a b : ℚ,
      ps.foldl (fun mm pq => (min mm.1 (qdot pq u v / L), max mm.2 (qdot pq u v / L)))
        (a / L, b / L) =
      ((ps.foldl (fun mm pq => (min mm.1 (qdot pq u v), max mm.2 (qdot pq u v))) (a, b)).1 / L,
       (ps.foldl (fun mm pq => (min mm.1 (qdot pq u v), max mm.2 (qdot pq u v))) (a, b)).2 / L) := by
  induction ps with
  | nil => intro a b; rfl
  | cons p ps ih =>
      intro a b
      simp only [List.foldl_cons, min_div_pos _ _ _ hL, max_div_pos _ _ _ hL]
      exact ih (min a (qdot p u v)) (max b (qdot p u v))

theorem qProj_scale (shape : List Pt) (u v L : ℚ) (hL : 0 < L) :
    qProj shape (u / L) (v / L) = ((qProj shape u v).1 / L, (qProj shape u v).2 / L) := by
  cases shape with
  | nil => simp [qProj]
  | cons p ps =>
      unfold qProj
      simp only [qdot_div]
      exact qProj_scale_aux ps u v L hL (qdot p u v) (qdot p u v)

theorem satAxisCheck_iff (cur other : List Pt) (i : ℕ)
    (hcur : cur ≠ []) (hother : other ≠ [])
    (hax : ¬((cur.getD ((i + 1) % cur.length) ⟨0, 0⟩).y - (cur.getD i ⟨0, 0⟩).y = 0 ∧
             (cur.getD i ⟨0, 0⟩).x - (cur.getD ((i + 1) % cur.length) ⟨0, 0⟩).x = 0)) :
    satAxisCheck cur other i = true ↔ ¬ separatingAxis cur other (axisAt cur i) := by
  unfold satAxisCheck separatingAxis axisAt
  dsimp only
  set Y := (cur.getD ((i + 1) % cur.length) ⟨0, 0⟩).y - (cur.getD i ⟨0, 0⟩).y with hYdef
  set X := (cur.getD i ⟨0, 0⟩).x - (cur.getD ((i + 1) % cur.length) ⟨0, 0⟩).x with hXdef
  have hpos : 0 < Y * Y + X * X := by
    rcases not_and_or.mp hax with h | h
    · nlinarith [mul_self_pos.mpr h, mul_self_nonneg X]
    · nlinarith [mul_self_pos.mpr h, mul_self_nonneg Y]
  have hL : 0 < sqrtQ (Y * Y + X * X) := sqrtQ_pos hpos
  rw [JF.mul_num, JF.mul_num, JF.add_num, JF.sqrt_num _ (not_lt.mpr hpos.le),
    JF.div_num (ne_of_gt hL), JF.div_num (ne_of_gt hL),
    projectShape_num cur _ _ hcur, projectShape_num other _ _ hother,
    qProj_scale cur _ _ _ hL, qProj_scale other _ _ _ hL]
  simp only [overlap, JF.le_num, Bool.and_eq_true, decide_eq_true_eq]
  rw [div_le_div_iff_of_pos_right hL, div_le_div_iff_of_pos_right hL]
  constructor
  · rintro ⟨h1, h2⟩ (hlt | hlt) <;> linarith
  · intro hn
    push_neg at hn
    exact ⟨hn.1, hn.2⟩

theorem cosQ_zero : cosQ 0 = 1 := by norm_num [cosQ]

theorem sinQ_zero : sinQ 0 = 0 := by norm_num [sinQ]

theorem getRotatedCornersWith_eq (x y w h c s : ℚ) :
    getRotatedCornersWith x y w h c s =
      [⟨x, y⟩, ⟨x + w * c, y + w * s⟩, ⟨x + w * c - h * s, y + w * s + h * c⟩,
       ⟨x - h * s, y + h * c⟩] := by
  simp only [getRotatedCornersWith, List.map_cons, List.map_nil, List.cons.injEq,
    Pt.mk.injEq]
  and_intros <;> first | ring | trivial

theorem getRotatedCorners_zero (x y w h : ℚ) :
    getRotatedCorners x y w h 0 =
      [⟨x, y⟩, ⟨x + w, y⟩, ⟨x + w, y + h⟩, ⟨x, y + h⟩] := by
  unfold getRotatedCorners
  rw [show (0 : ℚ) * ratPi / 180 = 0 by ring, cosQ_zero, sinQ_zero,
    getRotatedCornersWith_eq]
  simp only [List.cons.injEq, Pt.mk.injEq]
  and_intros <;> first | ring | trivial

theorem mul_unit_ne (a c s : ℚ) (ha : 0 < a) (hcs : c ^ 2 + s ^ 2 = 1)
    (h1 : a * s = 0) (h2 : a * c = 0) : False := by
  have hs0 : s = 0 := by
    rcases mul_eq_zero.mp h1 with h | h
    · exact absurd h ha.ne'
    · exact h
  have hc0 : c = 0 := by
    rcases mul_eq_zero.mp h2 with h | h
    · exact absurd h ha.ne'
    · exact h
  rw [hs0, hc0] at hcs
  norm_num at hcs

/-- C5: rotated-rectangle collision follows the Separating Axis Theorem.  For
a rotation other than `0` the predicate dispatches to `satCollision` on the
two corner quadrilaterals (the axis-aligned player corners and the obstacle
corners rotated about its position), and for any `(c, s)` on the unit circle
— which includes the cosine/sine pair of the converted angle — `satCollision`
reports a collision if and only if none of the 8 edge-normal axes of the two
quadrilaterals separates the projected intervals (`max1 < min2` or
`max2 < min1`). -/
theorem satCollision_iff_no_separating_axis
    (px py pw ph x y w h c s : ℚ) (wall : Wall)
    (hcs : c ^ 2 + s ^ 2 = 1) (hpw : 0 < pw) (hph : 0 < ph) (hw : 0 < w) (hh : 0 < h)
    (hrot : wall.rotation ≠ 0) :
    (checkRotatedRectangleCollision px py pw ph wall =
      satCollision (getRotatedCorners px py pw ph 0)
        (getRotatedCorners wall.x wall.y wall.width wall.height wall.rotation)) ∧
    (satCollision (getRotatedCorners px py pw ph 0) (getRotatedCornersWith x y w h c s) = true ↔
      ¬ ∃ ax ∈ edgeNormals (getRotatedCorners px py pw ph 0) ++
            edgeNormals (getRotatedCornersWith x y w h c s),
          separatingAxis (getRotatedCorners px py pw ph 0)
            (getRotatedCornersWith x y w h c s) ax) := by
  constructor
  · unfold checkRotatedRectangleCollision
    rw [if_neg hrot]
  · rw [getRotatedCorners_zero, getRotatedCornersWith_eq]
    set s1e : List Pt := [⟨px, py⟩, ⟨px + pw, py⟩, ⟨px + pw, py + ph⟩, ⟨px, py + ph⟩]
      with hs1e
    set s2e : List Pt := [⟨x, y⟩, ⟨x + w * c, y + w * s⟩,
      ⟨x + w * c - h * s, y + w * s + h * c⟩, ⟨x - h * s, y + h * c⟩] with hs2e
    have hne1 : s1e ≠ [] := by rw [hs1e]; exact List.cons_ne_nil _ _
    have hne2 : s2e ≠ [] := by rw [hs2e]; exact List.cons_ne_nil _ _
    have hr1 : List.range s1e.length = [0, 1, 2, 3] := by rw [hs1e]; rfl
    have hr2 : List.range s2e.length = [0, 1, 2, 3] := by rw [hs2e]; rfl
    have hax10 : ¬((s1e.getD ((0 + 1) % s1e.length) ⟨0, 0⟩).y - (s1e.getD 0 ⟨0, 0⟩).y = 0 ∧
        (s1e.getD 0 ⟨0, 0⟩).x - (s1e.getD ((0 + 1) % s1e.length) ⟨0, 0⟩).x = 0) := by
      rw [hs1e]
      simp
      exact hpw.ne'
    have hax11 : ¬((s1e.getD ((1 + 1) % s1e.length) ⟨0, 0⟩).y - (s1e.getD 1 ⟨0, 0⟩).y = 0 ∧
        (s1e.getD 1 ⟨0, 0⟩).x - (s1e.getD ((1 + 1) % s1e.length) ⟨0, 0⟩).x = 0) := by
      rw [hs1e]
      simp
      exact hph.ne'
    have hax12 : ¬((s1e.getD ((2 + 1) % s1e.length) ⟨0, 0⟩).y - (s1e.getD 2 ⟨0, 0⟩).y = 0 ∧
        (s1e.getD 2 ⟨0, 0⟩).x - (s1e.getD ((2 + 1) % s1e.length) ⟨0, 0⟩).x = 0) := by
      rw [hs1e]
      simp
      exact hpw.ne'
    have hax13 : ¬((s1e.getD ((3 + 1) % s1e.length) ⟨0, 0⟩).y - (s1e.getD 3 ⟨0, 0⟩).y = 0 ∧
        (s1e.getD 3 ⟨0, 0⟩).x - (s1e.getD ((3 + 1) % s1e.length) ⟨0, 0⟩).x = 0) := by
      rw [hs1e]
      simp
      exact hph.ne'
    have hax20 : ¬((s2e.getD ((0 + 1) % s2e.length) ⟨0, 0⟩).y - (s2e.getD 0 ⟨0, 0⟩).y = 0 ∧
        (s2e.getD 0 ⟨0, 0⟩).x - (s2e.getD ((0 + 1) % s2e.length) ⟨0, 0⟩).x = 0) := by
      rw [hs2e]
      simp
      rintro (h1 | h1)
      · exact absurd h1 hw.ne'
      · refine ⟨hw.ne', fun hc => ?_⟩
        rw [h1, hc] at hcs
        norm_num at hcs
    have hax21 : ¬((s2e.getD ((1 + 1) % s2e.length) ⟨0, 0⟩).y - (s2e.getD 1 ⟨0, 0⟩).y = 0 ∧
        (s2e.getD 1 ⟨0, 0⟩).x - (s2e.getD ((1 + 1) % s2e.length) ⟨0, 0⟩).x = 0) := by
      rw [hs2e]
      simp
      rintro (h1 | h1)
      · exact absurd h1 hh.ne'
      · refine ⟨hh.ne', fun hs => ?_⟩
        rw [h1, hs] at hcs
        norm_num at hcs
    have hax22 : ¬((s2e.getD ((2 + 1) % s2e.length) ⟨0, 0⟩).y - (s2e.getD 2 ⟨0, 0⟩).y = 0 ∧
        (s2e.getD 2 ⟨0, 0⟩).x - (s2e.getD ((2 + 1) % s2e.length) ⟨0, 0⟩).x = 0) := by
      rw [hs2e]
      simp
      rintro (h1 | h1)
      · exact absurd h1 hw.ne'
      · refine ⟨hw.ne', fun hc => ?_⟩
        rw [h1, hc] at hcs
        norm_num at hcs
    have hax23 : ¬((s2e.getD ((3 + 1) % s2e.length) ⟨0, 0⟩).y - (s2e.getD 3 ⟨0, 0⟩).y = 0 ∧
        (s2e.getD 3 ⟨0, 0⟩).x - (s2e.getD ((3 + 1) % s2e.length) ⟨0, 0⟩).x = 0) := by
      rw [hs2e]
      simp
      rintro (h1 | h1)
      · exact absurd h1 hh.ne'
      · refine ⟨hh.ne', fun hs => ?_⟩
        rw [h1, hs] at hcs
        norm_num at hcs
    have hedge1 : edgeNormals s1e = [axisAt s1e 0, axisAt s1e 1, axisAt s1e 2, axisAt s1e 3] := by
      rw [edgeNormals, hr1]
      rfl
    have hedge2 : edgeNormals s2e = [axisAt s2e 0, axisAt s2e 1, axisAt s2e 2, axisAt s2e 3] := by
      rw [edgeNormals, hr2]
      rfl
    have hcomm : ∀ ax, separatingAxis s2e s1e ax ↔ separatingAxis s1e s2e ax :=
      fun ax => or_comm
    unfold satCollision
    rw [hr1, hr2]
    simp only [List.all_cons, List.all_nil, Bool.and_true, Bool.and_eq_true]
    rw [satAxisCheck_iff s1e s2e 0 hne1 hne2 hax10,
      satAxisCheck_iff s1e s2e 1 hne1 hne2 hax11,
      satAxisCheck_iff s1e s2e 2 hne1 hne2 hax12,
      satAxisCheck_iff s1e s2e 3 hne1 hne2 hax13,
      satAxisCheck_iff s2e s1e 0 hne2 hne1 hax20,
      satAxisCheck_iff s2e s1e 1 hne2 hne1 hax21,
      satAxisCheck_iff s2e s1e 2 hne2 hne1 hax22,
      satAxisCheck_iff s2e s1e 3 hne2 hne1 hax23,
      hedge1, hedge2]
    simp only [hcomm, List.mem_append, List.mem_cons, List.not_mem_nil, or_false,
      or_assoc, exists_eq_or_imp, exists_eq_left, not_or, and_assoc]

/-- Witness for `satCollision_iff_no_separating_axis` at a concrete player,
obstacle and unit-circle pair. -/
theorem satCollision_iff_no_separating_axis_witness :
    (0 : ℚ) ^ 2 + (1 : ℚ) ^ 2 = 1 ∧ wallRot.rotation ≠ 0 ∧
    ((checkRotatedRectangleCollision 0 0 1 1 wallRot =
        satCollision (getRotatedCorners 0 0 1 1 0)
          (getRotatedCorners wallRot.x wallRot.y wallRot.width wallRot.height
            wallRot.rotation)) ∧
     (satCollision (getRotatedCorners 0 0 1 1 0) (getRotatedCornersWith 5 0 1 1 0 1) = true ↔
        ¬ ∃ ax ∈ edgeNormals (getRotatedCorners 0 0 1 1 0) ++
              edgeNormals (getRotatedCornersWith 5 0 1 1 0 1),
            separatingAxis (getRotatedCorners 0 0 1 1 0)
              (getRotatedCornersWith 5 0 1 1 0 1) ax)) := by
  refine ⟨by norm_num, by norm_num [wallRot], ?_⟩
  exact satCollision_iff_no_separating_axis 0 0 1 1 5 0 1 1 0 1 wallRot (by norm_num)
    (by norm_num) (by norm_num) (by norm_num) (by norm_num) (by norm_num [wallRot])
